import Mathlib

/-!
Verification development for the Dolpyitcs analytics server (src/server.py,
FastAPI + Prisma variant).

The embedding models the persistence state as three row lists (the Prisma
tables `event`, `pageperformance` and `error` that `save_event` writes and
`get_analytics` reads), `save_event` as a pure state update, and
`get_analytics` as a pure function of the database state, the range token,
the optional hostname filter and the current time `now` (captured once at
line 283 of server.py).

Modelling conventions:
  - Instants are integers (Unix seconds, UTC).  Sub-second precision is
    dropped by the timestamp parser model; no property below depends on it.
  - Python's `datetime.fromisoformat` (after the `.replace('Z', '+00:00')`
    at line 163) is modelled by `fromisoformat` below: the
    `YYYY-MM-DD[sep HH[:MM[:SS[.fff[fff]]]]][+HH:MM[:SS]]` shape accepted
    by the pre-3.11 parser, with calendar range validation, converted to
    Unix seconds by the standard civil-date algorithm.
  - Prisma query results are modelled over the row lists: `count` is list
    length after the where-filter, `distinct` is `List.dedup`,
    `group_by ... count={f: True}` groups by the exact column value and
    counts non-null values of `f` in each group (so the null group reports
    count 0, as SQL `COUNT(col)` does), ordering by count descending;
    tie order between equal counts is backend-dependent, and no theorem
    below depends on it.  `aggregate ... _avg` yields null when no row
    matches the filter (the falsy guard at line 397), and otherwise the
    per-column mean over rows where the column is non-null.
  - `round` on the averages is Python 3 rounding (half to even) of the
    exact mean, modelled by integer arithmetic (`pyRoundDiv`).
  - Columns that `get_analytics` never reads (url, title, userAgent,
    screen sizes, language, ip, the raw `data` JSON blob, and the
    `visitor`/`session` tables) are omitted from the row structures; the
    incoming JSON fields that exist only inside the `data` blob
    (elementText, maxScrollDepth, timeOnPage, ...) are kept on `EventData`
    to show that `save_event`/`get_analytics` ignore them.
-/

namespace Dolpyitcs

/-- A row of the Prisma `event` table, as created by `save_event`
(server.py lines 170-196).  `eventType`, `visitorId` and `sessionId` are
non-null columns (defaulted to `"unknown"` / `""` / `""` on ingest);
the dimension columns are nullable. -/
structure StoredEvent where
  eventType : String
  visitorId : String := ""
  sessionId : String := ""
  timestamp : Int
  path : Option String := none
  hostname : Option String := none
  referrer : Option String := none
  browser : Option String := none
  os : Option String := none
  deviceType : Option String := none
deriving DecidableEq

/-- A row of the Prisma `pageperformance` table (server.py lines 239-250).
The metric columns are numeric in the schema; they are modelled as
integers (all claim-relevant inputs are integral millisecond timings, and
floating-point representation error is outside this embedding). -/
structure PerfRow where
  timestamp : Int
  pageLoadTime : Option Int := none
  domContentLoaded : Option Int := none
  firstByte : Option Int := none
  dnsLookup : Option Int := none
  tcpConnect : Option Int := none
deriving DecidableEq

/-- A row of the Prisma `error` table (server.py lines 254-269); only the
columns read by `get_analytics` (`message`, `timestamp`) are modelled. -/
structure ErrorRow where
  timestamp : Int
  message : String
deriving DecidableEq

/-- The database state visible to `get_analytics`. -/
structure DB where
  events : List StoredEvent := []
  perf : List PerfRow := []
  errors : List ErrorRow := []
deriving DecidableEq

/-! ### Model of Python string/timestamp handling used by `save_event` -/

/-- One left-to-right non-overlapping replacement pass, modelling Python's
`str.replace` for a non-empty pattern (an empty pattern leaves the text
unchanged in this model; `save_event` only calls it with pattern `"Z"`).
The first argument is recursion fuel; every step consumes at least one
input character, so fuel equal to the input length suffices. -/
def replaceListAux (pat rep : List Char) : Nat → List Char → List Char
  | 0, l => l
  | _ + 1, [] => []
  | fuel + 1, c :: cs =>
    if pat.isPrefixOf (c :: cs) && !pat.isEmpty then
      rep ++ replaceListAux pat rep fuel (List.drop (pat.length - 1) cs)
    else
      c :: replaceListAux pat rep fuel cs

/-- Model of Python `str.replace`. -/
def pyReplace (s pat rep : String) : String :=
  String.mk (replaceListAux pat.toList rep.toList s.toList.length s.toList)

/-- Model of Python slicing `s[:n]` (by characters). -/
def pySlice (s : String) (n : Nat) : String :=
  String.mk (s.toList.take n)

/-- The numeric value of a decimal digit character, `none` otherwise. -/
def digitVal (c : Char) : Option Nat :=
  if c.isDigit then some (c.toNat - 48) else none

/-- Read exactly `n` decimal digits from the front of the character list. -/
def readFixedNat : Nat → List Char → Option (Nat × List Char)
  | 0, cs => some (0, cs)
  | _ + 1, [] => none
  | n + 1, c :: cs => do
    let d ← digitVal c
    let (rest, cs') ← readFixedNat n cs
    pure (d * 10 ^ n + rest, cs')

/-- Consume one expected character. -/
def expectChar (c : Char) : List Char → Option (List Char)
  | [] => none
  | c' :: cs => if c' = c then some cs else none

/-- Gregorian leap-year rule. -/
def isLeap (y : Nat) : Bool :=
  y % 4 = 0 && (y % 100 ≠ 0 || y % 400 = 0)

/-- Number of days in a month (Gregorian calendar). -/
def daysInMonth (y m : Nat) : Nat :=
  if m = 2 then (if isLeap y then 29 else 28)
  else if m = 4 || m = 6 || m = 9 || m = 11 then 30
  else 31

/-- Days from 1970-01-01 to the civil date `y-m-d` (valid Gregorian date,
`y ≥ 1`), by the standard civil-from-days algorithm. -/
def daysFromCivil (y m d : Nat) : Int :=
  let y' := if m ≤ 2 then y - 1 else y
  let era := y' / 400
  let yoe := y' % 400
  let mp := if 2 < m then m - 3 else m + 9
  let doy := (153 * mp + 2) / 5 + d - 1
  let doe := yoe * 365 + yoe / 4 - yoe / 100 + doy
  (era * 146097 + doe : Int) - 719468

/-- Read an optional fractional-seconds suffix (`.fff` or `.ffffff`); the
value is discarded (instants are modelled at second resolution). -/
def readFrac : List Char → Option (List Char)
  | '.' :: cs => do
    let (_, cs) ← readFixedNat 3 cs
    match cs with
    | c :: _ =>
      if c.isDigit then do
        let (_, cs') ← readFixedNat 3 cs
        pure cs'
      else pure cs
    | [] => pure cs
  | cs => some cs

/-- Read a UTC-offset suffix `±HH:MM[:SS]`, returning the offset in
seconds; the empty list means no offset (naive datetime, modelled as
offset 0). -/
def readOffset : List Char → Option Int
  | [] => some 0
  | c :: cs =>
    if c = '+' || c = '-' then do
      let (th, cs) ← readFixedNat 2 cs
      let cs ← expectChar ':' cs
      let (tm, cs) ← readFixedNat 2 cs
      let (ts, cs) ← (match cs with
        | ':' :: cs' => do
          let (x, cs'') ← readFixedNat 2 cs'
          pure (x, cs'')
        | rest => some (0, rest))
      if 23 < th || 59 < tm || 59 < ts || !cs.isEmpty then none
      else
        let off : Int := th * 3600 + tm * 60 + ts
        pure (if c = '-' then -off else off)
    else none

/-- Read the time-of-day part `HH[:MM[:SS[.frac]]]` followed by an
optional offset, returning seconds-of-day and offset seconds. -/
def readTime (cs : List Char) : Option (Nat × Int) := do
  let (h, cs) ← readFixedNat 2 cs
  let (mi, s, cs) ← (match cs with
    | ':' :: cs' => do
      let (mi, cs'') ← readFixedNat 2 cs'
      match cs'' with
      | ':' :: cs3 => do
        let (s, cs4) ← readFixedNat 2 cs3
        let cs5 ← readFrac cs4
        pure (mi, s, cs5)
      | rest => pure (mi, 0, rest)
    | rest => some (0, 0, rest))
  if 23 < h || 59 < mi || 59 < s then none
  else do
    let off ← readOffset cs
    pure (h * 3600 + mi * 60 + s, off)

/-- Model of `datetime.fromisoformat` (the pre-3.11 subset:
`YYYY-MM-DD[sep HH[:MM[:SS[.fff[fff]]]]][±HH:MM[:SS]]` with calendar
validation), converted to Unix seconds, UTC.  A naive datetime (no
offset) is modelled as UTC. -/
def fromisoformat (str : String) : Option Int := do
  let cs := str.toList
  let (y, cs) ← readFixedNat 4 cs
  let cs ← expectChar '-' cs
  let (m, cs) ← readFixedNat 2 cs
  let cs ← expectChar '-' cs
  let (d, cs) ← readFixedNat 2 cs
  if y < 1 || m < 1 || 12 < m || d < 1 || daysInMonth y m < d then none
  else
    match cs with
    | [] => pure (86400 * daysFromCivil y m d)
    | _sep :: rest => do
      let (sod, off) ← readTime rest
      pure (86400 * daysFromCivil y m d + sod - off)

/-! ### `save_event` (server.py lines 152-274) -/

/-- The `performance` sub-record of an incoming event
(server.py lines 237-249). -/
structure PerfPayload where
  pageLoadTime : Option Int := none
  domContentLoaded : Option Int := none
  firstByte : Option Int := none
  dnsLookup : Option Int := none
  tcpConnect : Option Int := none
deriving DecidableEq

/-- The incoming JSON event payload, restricted to the fields `save_event`
reads into the modelled tables plus the payload fields that exist only
inside the opaque `data` JSON blob (kept to show they are ignored).
`none` models an absent key (and, for `performance`, also an empty and
hence falsy dict). -/
structure EventData where
  eventType : Option String := none
  visitorId : Option String := none
  sessionId : Option String := none
  timestamp : Option String := none
  path : Option String := none
  hostname : Option String := none
  referrer : Option String := none
  browser : Option String := none
  os : Option String := none
  deviceType : Option String := none
  message : Option String := none
  performance : Option PerfPayload := none
  elementText : Option String := none
  elementId : Option String := none
  href : Option String := none
  maxScrollDepth : Option Int := none
  timeOnPage : Option Int := none
deriving DecidableEq

/-- Timestamp handling of `save_event` (server.py lines 160-167): a string
timestamp is parsed with `fromisoformat` after replacing `'Z'` with
`'+00:00'`; on parse failure, and when the field is absent or not a
string, the current time is substituted. -/
def parseEventTimestamp (ts : Option String) (now : Int) : Int :=
  match ts with
  | some s => (fromisoformat (pyReplace s "Z" "+00:00")).getD now
  | none => now

/-- `save_event` (server.py lines 152-274) as a pure database update: it
appends an `event` row (lines 170-196), a `pageperformance` row when the
event is performance-typed and carries a truthy `performance` payload
(lines 237-250), and an `error` row when the event is error-typed
(lines 253-269).  The `visitor`/`session` upserts (lines 199-234) touch
tables `get_analytics` never reads and are not modelled. -/
def save_event (ed : EventData) (now : Int) (db : DB) : DB :=
  let ts := parseEventTimestamp ed.timestamp now
  let ev : StoredEvent :=
    { eventType := ed.eventType.getD "unknown"
      visitorId := ed.visitorId.getD ""
      sessionId := ed.sessionId.getD ""
      timestamp := ts
      path := ed.path
      hostname := ed.hostname
      referrer := ed.referrer
      browser := ed.browser
      os := ed.os
      deviceType := ed.deviceType }
  let db := { db with events := db.events ++ [ev] }
  let db :=
    match ed.eventType, ed.performance with
    | some "performance", some p =>
      { db with perf := db.perf ++
          [{ timestamp := ts
             pageLoadTime := p.pageLoadTime
             domContentLoaded := p.domContentLoaded
             firstByte := p.firstByte
             dnsLookup := p.dnsLookup
             tcpConnect := p.tcpConnect }] }
    | _, _ => db
  match ed.eventType with
  | some "error" =>
    { db with errors := db.errors ++
        [{ timestamp := ts, message := ed.message.getD "Unknown error" }] }
  | _ => db

/-! ### `get_analytics` (server.py lines 277-438) -/

/-- The time-range table and lookup (server.py lines 286-292):
`ranges.get(time_range, ranges['7d'])` maps `24h`/`7d`/`30d` to the window
width in seconds, `all` to `None`, and any other token to the `7d` width. -/
def rangeDeltaSecs (time_range : String) : Option Int :=
  if time_range = "24h" then some (24 * 3600)
  else if time_range = "30d" then some (30 * 86400)
  else if time_range = "all" then none
  else some (7 * 86400)

/-- `start_time = (now - range_delta) if range_delta else None`
(server.py line 294). -/
def cutoffOf (time_range : String) (now : Int) : Option Int :=
  (rangeDeltaSecs time_range).map (fun d => now - d)

/-- The `timestamp: {gte: start_time}` part of the where clause
(server.py lines 298-299). -/
def inCutoff (cut : Option Int) (t : Int) : Bool :=
  match cut with
  | none => true
  | some c => decide (c ≤ t)

/-- The `hostname` part of the where clause (server.py lines 300-301);
`if hostname:` skips the filter for an absent or empty hostname. -/
def hostFilter (h : Option String) (e : StoredEvent) : Bool :=
  match h with
  | none => true
  | some s => if s = "" then true else e.hostname == some s

/-- The full event where clause: an event qualifies when its (ingest-time
parsed) timestamp is ≥ the cutoff, or unconditionally when there is none,
and it passes the hostname filter. -/
def qualifies (cut : Option Int) (h : Option String) (e : StoredEvent) : Bool :=
  inCutoff cut e.timestamp && hostFilter h e

/-- The range/hostname-filtered event set every aggregate of the report is
computed from. -/
def filteredEvents (db : DB) (time_range : String) (h : Option String) (now : Int) :
    List StoredEvent :=
  db.events.filter (fun e => qualifies (cutoffOf time_range now) h e)

/-- The filtered events of type `pageview` (the extra
`eventType: "pageview"` conjunct used by the per-dimension `group_by`
queries and the pageview count, lines 304-367). -/
def pvEvents (db : DB) (time_range : String) (h : Option String) (now : Int) :
    List StoredEvent :=
  (filteredEvents db time_range h now).filter (fun e => e.eventType == "pageview")

/-- Model of `group_by(by=[f], count={f: True})` over a nullable column:
one group per distinct column value, whose count is the number of non-null
occurrences of the column in the group (SQL `COUNT(col)`, so the null
group reports 0). -/
def fieldCounts (keys : List (Option String)) : List (Option String × Nat) :=
  keys.dedup.map (fun k => (k, match k with | none => 0 | some s => keys.count (some s)))

/-- Grouping with counts over a non-null column (the `error.message`
group_by, line 407). -/
def msgCounts (msgs : List String) : List (String × Nat) :=
  msgs.dedup.map (fun k => (k, msgs.count k))

/-- Model of `order={"_count": {f: "desc"}}`: stable sort by count
descending (the backend's tie order is unspecified; no theorem depends
on this model's tie order). -/
def sortCountDesc {α : Type} (l : List (α × Nat)) : List (α × Nat) :=
  List.insertionSort (fun a b => b.2 ≤ a.2) l

/-- `take=n` when present. -/
def takeOpt {α : Type} : Option Nat → List α → List α
  | none, l => l
  | some n, l => l.take n

/-- Python's `x or default` on a nullable string column (used when
rendering group labels, e.g. `getattr(p, "path", None) or "/"`). -/
def orDefault (v : Option String) (d : String) : String :=
  match v with
  | none => d
  | some s => if s = "" then d else s

/-- One `{label, count}` entry of a breakdown list (the JSON key for the
label is per-dimension: `page`/`referrer`/`browser`/`os`/`device`/
`message`; the count key is `views`/`count`). -/
structure Entry where
  label : String
  count : Nat
deriving DecidableEq

/-- One per-dimension breakdown over the pageview events: group by the
raw column value, sort by count descending, apply the `take` cap, then
render each group key with its falsy-default label
(server.py lines 323-367). -/
def breakdown (pv : List StoredEvent) (f : StoredEvent → Option String)
    (d : String) (cap : Option Nat) : List Entry :=
  (takeOpt cap (sortCountDesc (fieldCounts (pv.map f)))).map
    (fun kc => ⟨orDefault kc.1 d, kc.2⟩)

/-- Python 3 `round num/den` to the nearest integer, half to even, on the
exact rational `num / den` (`den > 0`). -/
def pyRoundDiv (num : Int) (den : Int) : Int :=
  let f : Int := num.fdiv den
  let r : Int := num - f * den
  if 2 * r < den then f
  else if den < 2 * r then f + 1
  else if f % 2 = 0 then f else f + 1

/-- `round` of the mean of a list, 0 when the list is empty (matching
`round(getattr(avg_obj, field, None) or 0)`, lines 400-402: a null SQL
average is replaced by 0 before rounding). -/
def roundedAvg (l : List Int) : Int :=
  if l = [] then 0 else pyRoundDiv l.sum l.length

/-- The `avgPerformance` object (server.py lines 396-403). -/
structure PerfAvg where
  pageLoadTime : Int
  domContentLoaded : Int
  firstByte : Int
deriving DecidableEq

/-- The `pageperformance` rows matching the timestamp filter of line 389
(note: the hostname filter is not applied to performance data). -/
def perfInRange (db : DB) (cut : Option Int) : List PerfRow :=
  db.perf.filter (fun r => inCutoff cut r.timestamp)

/-- The `aggregate ... _avg` call and the guard of lines 388-403:
null when no row matches, otherwise per-column means over non-null
values, rounded. -/
def avgPerfOf (rows : List PerfRow) : Option PerfAvg :=
  if rows = [] then none
  else some
    { pageLoadTime := roundedAvg (rows.filterMap PerfRow.pageLoadTime)
      domContentLoaded := roundedAvg (rows.filterMap PerfRow.domContentLoaded)
      firstByte := roundedAvg (rows.filterMap PerfRow.firstByte) }

/-- The `error` rows matching the timestamp filter of line 408 (again no
hostname filter). -/
def errorsInRange (db : DB) (cut : Option Int) : List ErrorRow :=
  db.errors.filter (fun r => inCutoff cut r.timestamp)

/-- `topErrors` (server.py lines 406-413): group the error rows by the
untruncated message, order by count descending, take 5, and truncate each
displayed message to 100 characters at output. -/
def topErrorsOf (db : DB) (cut : Option Int) : List Entry :=
  ((sortCountDesc (msgCounts ((errorsInRange db cut).map ErrorRow.message))).take 5).map
    (fun kc => ⟨pySlice kc.1 100, kc.2⟩)

/-- One projected entry of `recentEvents` (server.py lines 375-385; the
timestamp is kept as an instant rather than its ISO rendering). -/
structure RecentEvent where
  type : String
  path : Option String
  timestamp : Int
  visitorId : String
  browser : Option String
  device : Option String
deriving DecidableEq

/-- `recentEvents`: the filtered events ordered by timestamp descending,
first 20, projected (lines 370-385); `visitorId` is cut to 10 characters. -/
def recentEventsOf (evs : List StoredEvent) : List RecentEvent :=
  ((List.insertionSort (fun a b : StoredEvent => b.timestamp ≤ a.timestamp) evs).take 20).map
    (fun e =>
      { type := e.eventType
        path := e.path
        timestamp := e.timestamp
        visitorId := pySlice e.visitorId 10
        browser := e.browser
        device := e.deviceType })

/-- The `summary` object (server.py lines 419-426).  `avgTimeOnPage` and
`avgScrollDepth` are the hardcoded zeros of lines 424-425 (TODO stubs in
the source). -/
structure Summary where
  totalPageviews : Nat
  uniqueVisitors : Nat
  uniqueSessions : Nat
  totalEvents : Nat
  avgTimeOnPage : Nat
  avgScrollDepth : Nat
deriving DecidableEq

/-- One `{date, views}` entry of `viewsOverTime` (the source returns the
empty list, line 433). -/
structure DayEntry where
  date : String
  views : Nat
deriving DecidableEq

/-- One `{element, clicks}` entry of `topClicks` (the source returns the
empty list, line 434). -/
structure ClickEntry where
  element : String
  clicks : Nat
deriving DecidableEq

/-- The analytics report (server.py lines 418-438). -/
structure Report where
  summary : Summary
  topPages : List Entry
  topReferrers : List Entry
  browsers : List Entry
  operatingSystems : List Entry
  devices : List Entry
  timezones : List Entry
  viewsOverTime : List DayEntry
  topClicks : List ClickEntry
  topErrors : List Entry
  avgPerformance : Option PerfAvg
  recentEvents : List RecentEvent
deriving DecidableEq

/-- `get_analytics` (server.py lines 277-438) as a pure function of the
database state, the range token, the optional hostname filter and the
current time (`now = utc_now()`, captured once at line 283 and used for
every comparison in the report).  `distinct=["visitorId"]` /
`distinct=["sessionId"]` return one row per distinct column value, so the
unique counts are deduplicated-list lengths; `timezones`, `viewsOverTime`
and `topClicks` are the TODO stubs of lines 432-434. -/
def get_analytics (db : DB) (time_range : String) (hostname : Option String)
    (now : Int) : Report :=
  let cut := cutoffOf time_range now
  let filtered := filteredEvents db time_range hostname now
  let pv := pvEvents db time_range hostname now
  { summary :=
      { totalPageviews := pv.length
        uniqueVisitors := ((filtered.map StoredEvent.visitorId).dedup).length
        uniqueSessions := ((filtered.map StoredEvent.sessionId).dedup).length
        totalEvents := filtered.length
        avgTimeOnPage := 0
        avgScrollDepth := 0 }
    topPages := breakdown pv StoredEvent.path "/" (some 10)
    topReferrers := breakdown pv StoredEvent.referrer "direct" (some 10)
    browsers := breakdown pv StoredEvent.browser "Unknown" none
    operatingSystems := breakdown pv StoredEvent.os "Unknown" none
    devices := breakdown pv StoredEvent.deviceType "Unknown" none
    timezones := []
    viewsOverTime := []
    topClicks := []
    topErrors := topErrorsOf db cut
    avgPerformance := avgPerfOf (perfInRange db cut)
    recentEvents := recentEventsOf filtered }

/-- The claim's counting rule for C2, from the spec's words: the number of
distinct non-empty identifiers. -/
def specDistinctNonEmptyCount (ids : List String) : Nat :=
  ((ids.filter (fun s => s ≠ "")).dedup).length

/-! ### Concrete ingest scenarios used by the claim theorems -/

/-- A pageview event whose timestamp string does not parse
(test_server.py, `test_malformed_timestamp`). -/
def evC1 : EventData :=
  { eventType := some "pageview"
    visitorId := some "vis_123"
    timestamp := some "invalid-timestamp" }

/-- A pageview event with no visitor/session identifiers
(test_server.py, `test_missing_fields`). -/
def evC2 : EventData :=
  { eventType := some "pageview"
    timestamp := some "2023-11-14T00:00:00Z" }

/-- A pageview event referred from a Google search URL
(test_server.py, `sample_pageview_event`). -/
def evC3a : EventData :=
  { eventType := some "pageview"
    visitorId := some "vis_abc123"
    sessionId := some "sess_xyz789"
    timestamp := some "2023-11-14T00:00:00Z"
    path := some "/page1"
    hostname := some "example.com"
    referrer := some "https://google.com/search"
    browser := some "Chrome"
    os := some "Windows"
    deviceType := some "Desktop" }

/-- A pageview event with an empty referrer
(test_server.py, `test_empty_referrer`). -/
def evC3b : EventData :=
  { eventType := some "pageview"
    visitorId := some "vis_abc123"
    sessionId := some "sess_xyz789"
    timestamp := some "2023-11-14T00:00:00Z"
    referrer := some "" }

/-- A performance event carrying a full performance payload, on hostname
`a.com` (test_server.py, `sample_performance_event`). -/
def evC6 : EventData :=
  { eventType := some "performance"
    visitorId := some "v"
    sessionId := some "s"
    hostname := some "a.com"
    timestamp := some "2023-11-14T00:00:00Z"
    performance := some
      { pageLoadTime := some 1500
        domContentLoaded := some 800
        firstByte := some 200 } }

/-- An error event with the given message. -/
def evErr (m : String) : EventData :=
  { eventType := some "error"
    visitorId := some "v"
    sessionId := some "s"
    timestamp := some "2023-11-14T00:00:00Z"
    message := some m }

/-- The reference instant used by the concrete scenarios
(2023-11-14T22:13:20Z, later on the same day as their timestamps). -/
def tNow : Int := 1700000000

def dbC1 : DB := save_event evC1 tNow {}

def dbC2 : DB := save_event evC2 tNow {}

def dbC3 : DB := save_event evC3b tNow (save_event evC3a tNow {})

def dbC6 : DB := save_event evC6 tNow {}

/-- Two `boom` errors and one `zap` error. -/
def dbE : DB :=
  save_event (evErr "zap") tNow (save_event (evErr "boom") tNow (save_event (evErr "boom") tNow {}))

/-- A stored click event (outside every pageview breakdown). -/
def eClick : StoredEvent :=
  { eventType := "click", visitorId := "v", sessionId := "s", timestamp := tNow }

/-- A stored pageview event used to instantiate the C9 qualification rule. -/
def ePv : StoredEvent :=
  { eventType := "pageview", visitorId := "v", sessionId := "s", timestamp := tNow }

/-! ### Claim theorems -/

/-- C1 (code bug evaluation): `save_event` replaces an unparseable
timestamp string with the ingestion instant (server.py lines 159-167), so
the single event ingested with `timestamp="invalid-timestamp"` is counted
by the `range=7d` report: `totalEvents == 1`, not the `0` the spec and
`test_server.py::test_malformed_timestamp` require. -/
theorem C1_invalid_timestamp_still_counted :
    fromisoformat (pyReplace "invalid-timestamp" "Z" "+00:00") = none ∧
    (get_analytics dbC1 "7d" none tNow).summary.totalEvents = 1 ∧
    (get_analytics dbC1 "7d" none tNow).summary.totalPageviews = 1 := by
  decide

/-- C2 (counterexample): a stored collection holding exactly one event
whose `visitorId`/`sessionId` are absent (stored as `""`) yields
`uniqueVisitors == uniqueSessions == 1`, while the claim's count of
distinct non-empty identifiers is `0` — the empty identifier does
increase both counts. -/
theorem C2_empty_id_counted :
    (get_analytics dbC2 "7d" none tNow).summary.uniqueVisitors = 1 ∧
    (get_analytics dbC2 "7d" none tNow).summary.uniqueSessions = 1 ∧
    specDistinctNonEmptyCount
      ((filteredEvents dbC2 "7d" none tNow).map StoredEvent.visitorId) = 0 ∧
    specDistinctNonEmptyCount
      ((filteredEvents dbC2 "7d" none tNow).map StoredEvent.sessionId) = 0 := by
  decide

/-- C2 (amended): `uniqueVisitors`/`uniqueSessions` equal the number of
distinct `visitorId`/`sessionId` values over the filtered events, with the
empty string (used for absent identifiers) counting as a distinct value
like any other. -/
theorem C2_unique_counts_distinct_including_empty (db : DB) (tr : String)
    (h : Option String) (now : Int) :
    (get_analytics db tr h now).summary.uniqueVisitors =
      ((filteredEvents db tr h now).map StoredEvent.visitorId).toFinset.card ∧
    (get_analytics db tr h now).summary.uniqueSessions =
      ((filteredEvents db tr h now).map StoredEvent.sessionId).toFinset.card := by
  constructor <;> simp [get_analytics, List.card_toFinset]

/-- C3 (code bug evaluation): `get_analytics` groups referrers by the raw
stored string (server.py lines 360-367) — no host extraction and no
`"unknown"` fallback.  A pageview referred from
`"https://google.com/search"` produces the group key
`"https://google.com/search"`, not `"google.com"` as the spec and
`test_server.py::test_get_analytics_referrers` require; only the
falsy-default rendering of an empty referrer as `"direct"` is present. -/
theorem C3_referrer_not_normalized :
    (get_analytics dbC3 "7d" none tNow).topReferrers =
      [⟨"https://google.com/search", 1⟩, ⟨"direct", 1⟩] := by
  decide

/-- C4 (code bug evaluation): `summary.avgTimeOnPage` and
`summary.avgScrollDepth` are the hardcoded zeros of server.py lines
424-425 (TODO stubs), for every database, range and hostname — never the
rounded means the spec and `test_server.py::test_get_analytics_scroll_depth`
/ `test_get_analytics_time_on_page` require. -/
theorem C4_avg_summary_hardcoded_zero (db : DB) (tr : String) (h : Option String)
    (now : Int) :
    (get_analytics db tr h now).summary.avgTimeOnPage = 0 ∧
    (get_analytics db tr h now).summary.avgScrollDepth = 0 :=
  ⟨rfl, rfl⟩

/-- C5 (code bug evaluation): `topClicks` is the TODO stub `[]` of
server.py line 434 for every database, range and hostname — click events
are never grouped, counted or truncated, contradicting the spec and
`test_server.py::test_get_analytics_clicks` / `test_very_long_text`. -/
theorem C5_topClicks_always_empty (db : DB) (tr : String) (h : Option String)
    (now : Int) :
    (get_analytics db tr h now).topClicks = [] :=
  rfl

/-- C6 (counterexample): the performance aggregate of server.py line 389
filters by timestamp only, never by hostname.  With one ingested
performance event on hostname `a.com`, a report filtered to hostname
`b.com` has an empty filtered event set — so the claim requires
`avgPerformance` to be null — yet the code returns the averages of the
`a.com` event. -/
theorem C6_hostname_not_applied_to_perf :
    filteredEvents dbC6 "all" (some "b.com") tNow = [] ∧
    (get_analytics dbC6 "all" (some "b.com") tNow).avgPerformance =
      some ⟨1500, 800, 200⟩ := by
  decide

/-- C6 (amended): `avgPerformance` is null exactly when no performance
record (from a performance-typed event carrying a performance payload)
lies within the time window — the hostname filter is not applied — and
otherwise each sub-average equals `round(sum/count)` over the in-window
records that carry that sub-metric, 0 when none does. -/
theorem C6_avgPerformance_formula (db : DB) (tr : String) (h : Option String)
    (now : Int) :
    ((get_analytics db tr h now).avgPerformance = none ↔
      perfInRange db (cutoffOf tr now) = []) ∧
    (∀ pa, (get_analytics db tr h now).avgPerformance = some pa →
      (pa.pageLoadTime =
        (let L := (perfInRange db (cutoffOf tr now)).filterMap PerfRow.pageLoadTime
         if L = [] then 0 else pyRoundDiv L.sum L.length)) ∧
      (pa.domContentLoaded =
        (let L := (perfInRange db (cutoffOf tr now)).filterMap PerfRow.domContentLoaded
         if L = [] then 0 else pyRoundDiv L.sum L.length)) ∧
      (pa.firstByte =
        (let L := (perfInRange db (cutoffOf tr now)).filterMap PerfRow.firstByte
         if L = [] then 0 else pyRoundDiv L.sum L.length))) := by
  have hav : (get_analytics db tr h now).avgPerformance =
      avgPerfOf (perfInRange db (cutoffOf tr now)) := rfl
  rw [hav]
  unfold avgPerfOf
  split
  · constructor
    · simp [*]
    · intro pa hpa
      exact absurd hpa (by simp)
  · constructor
    · simp [*]
    · intro pa hpa
      cases hpa
      exact ⟨rfl, rfl, rfl⟩

/-- C6 (witness): the amended formula applied to the one-event performance
database (mean of one record is the record itself). -/
theorem C6_avgPerformance_formula_witness :
    (1500 : Int) =
      (let L := (perfInRange dbC6 (cutoffOf "all" tNow)).filterMap PerfRow.pageLoadTime
       if L = [] then 0 else pyRoundDiv L.sum L.length) := by
  have h := C6_avgPerformance_formula dbC6 "all" none tNow
  exact (h.2 ⟨1500, 800, 200⟩ (by decide)).1

/-- C7 (code bug evaluation): `viewsOverTime` is the TODO stub `[]` of
server.py line 433 for every database, range and hostname — in particular
it stays empty when the filtered set contains pageview events,
contradicting the spec and
`test_server.py::test_get_analytics_views_over_time`. -/
theorem C7_viewsOverTime_always_empty (db : DB) (tr : String) (h : Option String)
    (now : Int) :
    (get_analytics db tr h now).viewsOverTime = [] :=
  rfl

/-! ### Helper lemmas about the grouping/ranking model -/

/-- Every group produced by `msgCounts` carries the multiplicity of its
key in the input list. -/
theorem mem_msgCounts {msgs : List String} {p : String × Nat}
    (hp : p ∈ msgCounts msgs) : p.2 = msgs.count p.1 := by
  unfold msgCounts at hp
  rcases List.mem_map.1 hp with ⟨k, _, rfl⟩
  rfl

/-- Sorting by count is a permutation. -/
theorem mem_sortCountDesc {α : Type} {l : List (α × Nat)} {p : α × Nat} :
    p ∈ sortCountDesc l ↔ p ∈ l :=
  (List.perm_insertionSort _ l).mem_iff

/-- The count-descending sort is sorted. -/
theorem sorted_sortCountDesc {α : Type} (l : List (α × Nat)) :
    List.Pairwise (fun a b : α × Nat => b.2 ≤ a.2) (sortCountDesc l) := by
  haveI : IsTotal (α × Nat) (fun a b => b.2 ≤ a.2) := ⟨fun a b => Nat.le_total b.2 a.2⟩
  haveI : IsTrans (α × Nat) (fun a b => b.2 ≤ a.2) :=
    ⟨fun _ _ _ hab hbc => le_trans hbc hab⟩
  exact List.sorted_insertionSort _ l

/-- Python slicing yields at most the requested number of characters. -/
theorem pySlice_length_le (s : String) (n : Nat) : (pySlice s n).length ≤ n := by
  have hrfl : (pySlice s n).length = (s.toList.take n).length := rfl
  rw [hrfl, List.length_take]
  exact min_le_left _ _

/-- A map over pairs whose second components are determined by the first
factors through the list of first components. -/
theorem map_fst_map {α β γ : Type} (l : List (α × β)) (f : α × β → γ) (g : α → γ)
    (hfg : ∀ p ∈ l, f p = g p.1) : l.map f = (l.map Prod.fst).map g := by
  rw [List.map_map]
  exact List.map_congr_left hfg

/-- C8: `topErrors` has at most 5 entries, sorted by count descending;
every displayed message has at most 100 characters; and the entries are
the images of full (untruncated) messages, each counted by the
multiplicity of the untruncated message among the in-window error rows
and truncated to 100 characters only at output. -/
theorem C8_topErrors_spec (db : DB) (tr : String) (h : Option String) (now : Int) :
    (get_analytics db tr h now).topErrors.length ≤ 5 ∧
    List.Pairwise (fun a b : Entry => b.count ≤ a.count)
      (get_analytics db tr h now).topErrors ∧
    (∀ e ∈ (get_analytics db tr h now).topErrors, e.label.length ≤ 100) ∧
    (∃ keys : List String,
      (get_analytics db tr h now).topErrors =
        keys.map (fun m =>
          ⟨pySlice m 100,
            ((errorsInRange db (cutoffOf tr now)).map ErrorRow.message).count m⟩)) := by
  have hform : (get_analytics db tr h now).topErrors =
      ((sortCountDesc (msgCounts
          ((errorsInRange db (cutoffOf tr now)).map ErrorRow.message))).take 5).map
        (fun kc => ⟨pySlice kc.1 100, kc.2⟩) := rfl
  refine ⟨?_, ?_, ?_, ?_⟩
  · rw [hform, List.length_map, List.length_take]
    exact min_le_left _ _
  · rw [hform]
    have h1 : List.Pairwise (fun a b : String × Nat => b.2 ≤ a.2)
        ((sortCountDesc (msgCounts
          ((errorsInRange db (cutoffOf tr now)).map ErrorRow.message))).take 5) :=
      (sorted_sortCountDesc _).sublist (List.take_sublist _ _)
    exact h1.map _ (fun a b hab => hab)
  · intro e he
    rw [hform] at he
    rcases List.mem_map.1 he with ⟨kc, _, rfl⟩
    exact pySlice_length_le _ _
  · refine ⟨((sortCountDesc (msgCounts
      ((errorsInRange db (cutoffOf tr now)).map ErrorRow.message))).take 5).map Prod.fst, ?_⟩
    rw [hform]
    apply map_fst_map
    intro p hp
    have hpl : p ∈ msgCounts ((errorsInRange db (cutoffOf tr now)).map ErrorRow.message) :=
      mem_sortCountDesc.1 (List.take_subset _ _ hp)
    rw [mem_msgCounts hpl]

/-- C8 (witness): on a database holding two `boom` errors and one `zap`
error, the entry for `boom` is present with count 2 and its displayed
message is within the 100-character bound. -/
theorem C8_topErrors_spec_witness :
    (⟨"boom", 2⟩ : Entry) ∈ (get_analytics dbE "all" none tNow).topErrors ∧
    (⟨"boom", 2⟩ : Entry).label.length ≤ 100 := by
  have h := C8_topErrors_spec dbE "all" none tNow
  exact ⟨by decide, h.2.2.1 ⟨"boom", 2⟩ (by decide)⟩

/-- C9: the range resolver maps `24h`/`7d`/`30d` to `now` minus the
window, `all` to no cutoff, and every other token to the `7d` cutoff; with
no hostname filter an event qualifies exactly when the database holds it
and its (ingest-parsed) timestamp is ≥ the cutoff, or unconditionally
when there is none; and the report's `totalEvents` ranges over exactly
the so-filtered set.  The single `now` argument is the current time
captured once per report (server.py line 283). -/
theorem C9_range_resolver (now : Int) :
    cutoffOf "24h" now = some (now - 24 * 3600) ∧
    cutoffOf "7d" now = some (now - 7 * 86400) ∧
    cutoffOf "30d" now = some (now - 30 * 86400) ∧
    cutoffOf "all" now = none ∧
    (∀ tr : String, tr ≠ "24h" → tr ≠ "30d" → tr ≠ "all" →
      cutoffOf tr now = some (now - 7 * 86400)) ∧
    (∀ (db : DB) (tr : String) (e : StoredEvent),
      e ∈ filteredEvents db tr none now ↔
        e ∈ db.events ∧
          (cutoffOf tr now = none ∨
            ∃ c, cutoffOf tr now = some c ∧ c ≤ e.timestamp)) ∧
    (∀ (db : DB) (tr : String) (h : Option String),
      (get_analytics db tr h now).summary.totalEvents =
        (filteredEvents db tr h now).length) := by
  refine ⟨rfl, rfl, rfl, rfl, ?_, ?_, fun _ _ _ => rfl⟩
  · intro tr h1 h2 h3
    simp [cutoffOf, rangeDeltaSecs, h1, h2, h3]
  · intro db tr e
    cases hc : cutoffOf tr now with
    | none =>
      simp [filteredEvents, qualifies, inCutoff, hostFilter, hc, List.mem_filter]
    | some c =>
      simp [filteredEvents, qualifies, inCutoff, hostFilter, hc, List.mem_filter]

/-- C9 (witness): an unrecognized token resolves to the `7d` cutoff, and
a concrete stored event qualifies under `all`. -/
theorem C9_range_resolver_witness :
    cutoffOf "weird" 0 = some (0 - 7 * 86400) ∧
    ePv ∈ filteredEvents { events := [ePv] } "all" none 0 := by
  have h := C9_range_resolver 0
  refine ⟨h.2.2.2.2.1 "weird" (by decide) (by decide) (by decide), ?_⟩
  exact (h.2.2.2.2.2.1 { events := [ePv] } "all" ePv).mpr
    ⟨by decide, Or.inl (by decide)⟩

/-- C10: appending an event of any non-`pageview` type leaves `topPages`,
`topReferrers`, `browsers`, `operatingSystems` and `devices` unchanged
(they are computed from the pageview-typed filtered events only), while
the filtered set backing `totalEvents` and the unique counts does gain the
event whenever it passes the range/hostname filter. -/
theorem C10_breakdowns_pageview_only (db : DB) (e : StoredEvent) (tr : String)
    (h : Option String) (now : Int) (hne : e.eventType ≠ "pageview") :
    (get_analytics { db with events := db.events ++ [e] } tr h now).topPages =
      (get_analytics db tr h now).topPages ∧
    (get_analytics { db with events := db.events ++ [e] } tr h now).topReferrers =
      (get_analytics db tr h now).topReferrers ∧
    (get_analytics { db with events := db.events ++ [e] } tr h now).browsers =
      (get_analytics db tr h now).browsers ∧
    (get_analytics { db with events := db.events ++ [e] } tr h now).operatingSystems =
      (get_analytics db tr h now).operatingSystems ∧
    (get_analytics { db with events := db.events ++ [e] } tr h now).devices =
      (get_analytics db tr h now).devices ∧
    filteredEvents { db with events := db.events ++ [e] } tr h now =
      filteredEvents db tr h now ++
        (if qualifies (cutoffOf tr now) h e then [e] else []) ∧
    (get_analytics { db with events := db.events ++ [e] } tr h now).summary.totalEvents =
      (get_analytics db tr h now).summary.totalEvents +
        (if qualifies (cutoffOf tr now) h e then 1 else 0) := by
  have hfe : filteredEvents { db with events := db.events ++ [e] } tr h now =
      filteredEvents db tr h now ++
        (if qualifies (cutoffOf tr now) h e then [e] else []) := by
    unfold filteredEvents
    rw [List.filter_append]
    cases hq : qualifies (cutoffOf tr now) h e <;> simp [hq]
  have hpv : pvEvents { db with events := db.events ++ [e] } tr h now =
      pvEvents db tr h now := by
    unfold pvEvents
    rw [hfe, List.filter_append]
    have hnil : List.filter (fun x => x.eventType == "pageview")
        (if qualifies (cutoffOf tr now) h e then [e] else []) = [] := by
      cases hq : qualifies (cutoffOf tr now) h e <;> simp [hne]
    rw [hnil, List.append_nil]
  refine ⟨?_, ?_, ?_, ?_, ?_, hfe, ?_⟩
  · exact congrArg (fun l => breakdown l StoredEvent.path "/" (some 10)) hpv
  · exact congrArg (fun l => breakdown l StoredEvent.referrer "direct" (some 10)) hpv
  · exact congrArg (fun l => breakdown l StoredEvent.browser "Unknown" none) hpv
  · exact congrArg (fun l => breakdown l StoredEvent.os "Unknown" none) hpv
  · exact congrArg (fun l => breakdown l StoredEvent.deviceType "Unknown" none) hpv
  · show (filteredEvents { db with events := db.events ++ [e] } tr h now).length =
      (filteredEvents db tr h now).length +
        (if qualifies (cutoffOf tr now) h e then 1 else 0)
    rw [hfe, List.length_append]
    cases hq : qualifies (cutoffOf tr now) h e <;> simp

/-- C10 (witness): appending a click event to the empty database leaves
`topPages` unchanged. -/
theorem C10_breakdowns_pageview_only_witness :
    (get_analytics { ({} : DB) with events := ({} : DB).events ++ [eClick] }
        "7d" none tNow).topPages =
      (get_analytics {} "7d" none tNow).topPages := by
  have h := C10_breakdowns_pageview_only {} eClick "7d" none tNow (by decide)
  exact h.1

end Dolpyitcs
